import Mathlib

/-!
Verification of the Reinforce-Ada evaluation pipeline.

The embedded code is `eval/compute_score.py` (boxed-answer extraction,
per-response scoring with failure absorption, aggregation of the scores,
optional per-sample persistence) and `eval/merge_data.py` (merging of shard
files followed by an in-place Fisher-Yates shuffle).

Python floats are modelled as rationals (`ℚ`), Python exceptions reaching the
scoring code as an explicit `PyExc` value carried by `Except`, and the external
capabilities (`math_verify`'s metric, `qwen_evaluation`'s `extract_answer` and
`math_equal`) as arbitrary functions that either return a value or raise.
-/

namespace ReinforceAda

/-- The opening curly-brace character. -/
def openBrace : Char := '\x7b'

/-- The closing curly-brace character. -/
def closeBrace : Char := '\x7d'

/-- Exceptions that can reach the `try` block of `compute_score`:
`TimeoutException` (from `math_verify.errors`) and every other exception.
Both derive from Python's `Exception` class. -/
inductive PyExc where
  | timeoutException
  | otherException
deriving DecidableEq

/-- Which exceptions the clause `except Exception:` catches: all of them,
because `TimeoutException` subclasses `Exception`. -/
def catchesException : PyExc → Bool := fun _ => true

/-- Which exceptions the clause `except TimeoutException:` catches. -/
def catchesTimeoutException : PyExc → Bool
  | .timeoutException => true
  | .otherException => false

/-- Python handler dispatch for the `try` of `compute_score`
(`compute_score.py` lines 71-76): clauses are tried in source order and the
first matching one runs. `except Exception: pass` keeps `ret_score`;
`except TimeoutException:` would set `timeout_score` but is listed second.
An exception matching no clause would propagate (`Except.error`). -/
def handleVerifyExc (timeout_score ret_score : ℚ) (e : PyExc) : Except PyExc ℚ :=
  if catchesException e then .ok ret_score
  else if catchesTimeoutException e then .ok timeout_score
  else .error e

/-- The marker token `\boxed` preceding a candidate opening brace. -/
def boxedMarker : List Char := ['\\', 'b', 'o', 'x', 'e', 'd']

/-- ASCII characters of the regex class `\s`. -/
def isSpaceChar (c : Char) : Bool :=
  c == ' ' || c == '\t' || c == '\n' || c == '\r' || c == '\x0b' || c == '\x0c'

/-- Characters of the regex class `[a-zA-Z0-9]`. -/
def isAlnumChar (c : Char) : Bool :=
  ('a' ≤ c && c ≤ 'z') || ('A' ≤ c && c ≤ 'Z') || ('0' ≤ c && c ≤ '9')

/-- The brace scan of `extract_boxed` (`compute_score.py` lines 38-49).
`full` is the complete character list of the text; the scan walks the
remaining characters `rest` (every call maintains `rest = full.drop i`, with
`i` the current index), `stack` holds the indices of currently unmatched
opening braces, newest first, and `acc` the candidate contents collected so
far, in order of their closing brace.  A closing brace met with an empty
stack is Python's early `return ""`, modelled as `none`; reaching the end of
the text yields `some acc`. -/
def scanBoxed (full : List Char) : List Char → Nat → List Nat → List (List Char) →
    Option (List (List Char))
  | [], _, _, acc => some acc
  | c :: rest, i, stack, acc =>
    if c = openBrace then
      scanBoxed full rest (i + 1) (i :: stack) acc
    else if c = closeBrace then
      match stack with
      | [] => none
      | lastOpen :: stackRest =>
        if boxedMarker.isSuffixOf (full.take lastOpen) then
          scanBoxed full rest (i + 1) stackRest
            (acc ++ [(full.drop (lastOpen + 1)).take (i - (lastOpen + 1))])
        else
          scanBoxed full rest (i + 1) stackRest acc
    else
      scanBoxed full rest (i + 1) stack acc

/-- Attempt of the fallback pattern `\\boxed\s+([a-zA-Z0-9]+)` at the head of
`cs`: the literal marker, then one or more whitespace characters, then the
captured run of one or more alphanumeric characters.  Greedy matching is
exact here because the whitespace and alphanumeric classes are disjoint. -/
def boxedFallbackHere (cs : List Char) : Option (List Char) :=
  if boxedMarker.isPrefixOf cs then
    let afterMarker := cs.drop boxedMarker.length
    let ws := afterMarker.takeWhile isSpaceChar
    if ws.isEmpty then none
    else
      let tok := (afterMarker.drop ws.length).takeWhile isAlnumChar
      if tok.isEmpty then none else some tok
  else none

/-- `re.search` of the fallback pattern (`compute_score.py` line 54): the
pattern is attempted at every start position and the leftmost match wins. -/
def boxedFallbackSearch : List Char → Option (List Char)
  | [] => none
  | c :: rest =>
    match boxedFallbackHere (c :: rest) with
    | some tok => some tok
    | none => boxedFallbackSearch rest

/-- `extract_boxed` (`compute_score.py` lines 33-58): the content of the last
`\boxed` brace group of the text; the empty string as soon as an unmatched
closing brace is scanned; when the scan completes with no candidate, the
regex fallback for a brace-less `\boxed <token>`. -/
def extract_boxed (text : String) : String :=
  let cs := text.toList
  match scanBoxed cs cs 0 [] [] with
  | none => ""
  | some boxed_strs =>
    match boxed_strs.getLast? with
    | some lastCand => ⟨lastCand⟩
    | none =>
      match boxedFallbackSearch cs with
      | some tok => ⟨tok⟩
      | none => ""

/-- `compute_score` (`compute_score.py` lines 61-78).  `verify` is the
verifier callable built by `math_metric`, taking the boxed gold string and
the boxed prediction string; it returns a score or raises.  `ret_score`
starts at `0.0`, the two operands are wrapped in a synthetic `\boxed{...}`
shell, and an exception from the verifier goes through the handler chain
`except Exception: pass` / `except TimeoutException: ret_score = timeout_score`.
The Python default for `timeout_score` is `0`. -/
def compute_score (verify : String → String → Except PyExc ℚ)
    (model_output ground_truth : String) (timeout_score : ℚ) : Except PyExc ℚ :=
  let ret_score : ℚ := 0
  let ground_truth_boxed : String := "\\boxed\x7b" ++ ground_truth ++ "\x7d"
  let prediction_boxed : String := "\\boxed\x7b" ++ extract_boxed model_output ++ "\x7d"
  match verify ground_truth_boxed prediction_boxed with
  | .ok s => .ok s
  | .error e => handleVerifyExc timeout_score ret_score e

/-- One input record of the dataset read by `main`: the problem statement,
the ground truth `gt` and the ordered list of model `responses`.  Other
metadata fields pass through the pipeline untouched and are not modelled. -/
structure Sample where
  problem : String
  gt : String
  responses : List String
deriving DecidableEq

/-- The external capabilities consumed by `main`: the verifier callable
returned by `math_metric` and, for the `minerva_math` branch,
`qwen_evaluation.parser.extract_answer` (taking the response and the data
name) and `qwen_evaluation.grader.math_equal` (taking the extracted answer
and the ground truth).  Each is an arbitrary callable that returns a value
or raises. -/
structure ExternalCaps where
  verify : String → String → Except PyExc ℚ
  extract_answer : String → String → Except PyExc String
  math_equal : String → String → Except PyExc Bool

/-- A Python boolean averaged by `np.mean` counts as 1 or 0. -/
def boolScore (b : Bool) : ℚ := if b then 1 else 0

/-- Substring test: does `pat` occur contiguously inside the list? -/
def containsSub (pat : List Char) : List Char → Bool
  | [] => pat.isEmpty
  | c :: rest => pat.isPrefixOf (c :: rest) || containsSub pat rest

/-- Line 90 of `compute_score.py`:
`is_minerva_math = "minerva_math" in script_args.dataset_path.lower()`,
the per-run strategy flag. -/
def isMinervaMath (dataset_path : String) : Bool :=
  containsSub "minerva_math".toList (dataset_path.toList.map Char.toLower)

/-- Scoring of one response (`compute_score.py` lines 98-101).  The
`minerva_math` branch calls the external graders directly, with no
surrounding `try`, so an exception raised there propagates; the general
branch calls `compute_score`, which is called with the default
`timeout_score = 0`. -/
def scoreResponse (caps : ExternalCaps) (is_minerva_math : Bool)
    (ground_truth response : String) : Except PyExc ℚ :=
  if is_minerva_math then
    match caps.extract_answer response "minerva_math" with
    | .error e => .error e
    | .ok ans =>
      match caps.math_equal ans ground_truth with
      | .error e => .error e
      | .ok b => .ok (boolScore b)
  else
    compute_score caps.verify response ground_truth 0

/-- The inner loop of `main` (`compute_score.py` lines 97-102): `tmp_scores`
receives one score per response in order; a raised exception aborts the
whole loop. -/
def scoreResponses (caps : ExternalCaps) (is_minerva_math : Bool)
    (ground_truth : String) : List String → Except PyExc (List ℚ)
  | [] => .ok []
  | r :: rs =>
    match scoreResponse caps is_minerva_math ground_truth r with
    | .error e => .error e
    | .ok s =>
      match scoreResponses caps is_minerva_math ground_truth rs with
      | .error e => .error e
      | .ok tl => .ok (s :: tl)

/-- The outer loop of `main` (`compute_score.py` lines 92-103): `all_scores`,
one score list per sample in order; a raised exception aborts the run. -/
def scoreAll (caps : ExternalCaps) (is_minerva_math : Bool) :
    List Sample → Except PyExc (List (List ℚ))
  | [] => .ok []
  | s :: ss =>
    match scoreResponses caps is_minerva_math s.gt s.responses with
    | .error e => .error e
    | .ok tmp =>
      match scoreAll caps is_minerva_math ss with
      | .error e => .error e
      | .ok rest => .ok (tmp :: rest)

/-- Is the nested list rectangular, i.e. do all inner lists share one
length?  `np.mean` only accepts the nested Python list `all_scores` in this
case; a ragged nesting makes NumPy raise. -/
def isRectangular (xss : List (List ℚ)) : Bool :=
  match xss with
  | [] => true
  | xs :: rest => rest.all (fun ys => ys.length == xs.length)

/-- `np.mean(all_scores)` on the nested list of scores: the mean of all
entries when the nesting is rectangular and nonempty.  A ragged nesting
raises and an empty one yields NaN; both are modelled as `none`. -/
def npMean (xss : List (List ℚ)) : Option ℚ :=
  if isRectangular xss then
    let flat := xss.flatten
    if flat.length == 0 then none
    else some (flat.sum / (flat.length : ℚ))
  else none

/-- Rounding to the nearest integer with ties to even, the rounding
`np.round` applies. -/
def roundHalfEven (q : ℚ) : ℤ :=
  let f := ⌊q⌋
  if q - f < 1 / 2 then f
  else if 1 / 2 < q - f then f + 1
  else if f % 2 = 0 then f else f + 1

/-- `np.round(x, 4)`: round to 4 decimal places. -/
def round4 (q : ℚ) : ℚ := (roundHalfEven (q * 10000) : ℚ) / 10000

/-- The single summary record written by `main` (`compute_score.py` lines
105-108): the dataset path and the rounded mean, on one line. -/
structure ScoreRecord where
  source : String
  mean : ℚ
deriving DecidableEq

/-- Lines 105-108 of `compute_score.py`: the one summary record of the run,
produced only when `np.mean` succeeds on `all_scores`. -/
def summarize (dataset_path : String) (all_scores : List (List ℚ)) : Option ScoreRecord :=
  (npMean all_scores).map (fun m => ⟨dataset_path, round4 m⟩)

/-- One line of the annotated output file (`compute_score.py` line 114):
the original fields of the sample plus the added `scores` field. -/
structure ScoredSample where
  problem : String
  gt : String
  responses : List String
  scores : List ℚ
deriving DecidableEq

/-- `sample["scores"] = all_scores[i]` (`compute_score.py` line 114): the
original fields pass through unchanged and exactly the `scores` field is
added. -/
def annotateSample (s : Sample) (scores : List ℚ) : ScoredSample :=
  ⟨s.problem, s.gt, s.responses, scores⟩

/-- `gathered_data` (`compute_score.py` lines 112-115): one annotated record
per sample, the i-th carrying `all_scores[i]`.  (The loop indexes
`all_scores` by the sample's position; `all_scores` has one entry per sample
by construction of the scoring loop.)  Each record becomes one line of the
output file; JSON serialization by the standard library is modelled as the
identity on records, per its round-trip contract. -/
def gatherScored (samples : List Sample) (all_scores : List (List ℚ)) : List ScoredSample :=
  (samples.zip all_scores).map (fun p => annotateSample p.1 p.2)

/-- The part of `l` strictly before the first occurrence of `pat`, the whole
list when `pat` does not occur: Python's `l.split(pat)[0]` for a nonempty
separator. -/
def beforeFirst (pat : List Char) : List Char → List Char
  | [] => []
  | c :: rest =>
    if pat.isPrefixOf (c :: rest) then []
    else c :: beforeFirst pat rest

/-- Line 117 of `compute_score.py`: the annotated file's location,
`script_args.dataset_path.split(".jsonl")[0] + "_score.jsonl"`. -/
def scoreOutputPath (dataset_path : String) : String :=
  (⟨beforeFirst ".jsonl".toList dataset_path.toList⟩ : String) ++ "_score.jsonl"

/-- The Python statement `x[i], x[j] = x[j], x[i]` on a list: both reads
happen before both writes.  Out-of-range indices cannot occur in
`shuffleGo` but would leave the list unchanged. -/
def pySwap {α : Type} (l : List α) (i j : Nat) : List α :=
  if hi : i < l.length then
    if hj : j < l.length then
      (l.set i (l.get ⟨j, hj⟩)).set j (l.get ⟨i, hi⟩)
    else l
  else l

/-- CPython's `random.shuffle(x)`: for `i` from `len(x) - 1` down to `1`,
swap `x[i]` with `x[j]` where `j = randbelow(i + 1)`.  The successive draws
are an oracle `rand`; reducing `rand k` modulo `k + 1` places `j` in
`[0, k]` exactly as `randbelow(k + 1)` does. -/
def shuffleGo {α : Type} (rand : Nat → Nat) : Nat → List α → List α
  | 0, l => l
  | k + 1, l => shuffleGo rand k (pySwap l (k + 1) (rand (k + 1) % (k + 2)))

/-- `random.shuffle` applied to the whole list (`merge_data.py` line 43). -/
def pyShuffle {α : Type} (rand : Nat → Nat) (l : List α) : List α :=
  shuffleGo rand (l.length - 1) l

/-- `main` of `merge_data.py` (lines 36-44): the samples of all shards are
appended in order into `gathered_data`, which is then shuffled in place.
The reported total is the length of the result. -/
def mergeShards {α : Type} (rand : Nat → Nat) (shards : List (List α)) : List α :=
  pyShuffle rand shards.flatten

/-- The value `compute_score` returns: the verifier's score when the call
returns, the untouched initial `ret_score = 0` when it raises (the first
handler clause catches every exception).  That `compute_score` always
returns this value and never propagates an exception is proved in
`compute_score_eq_ok`. -/
def computeScoreVal (verify : String → String → Except PyExc ℚ)
    (model_output ground_truth : String) : ℚ :=
  match verify ("\\boxed\x7b" ++ ground_truth ++ "\x7d")
      ("\\boxed\x7b" ++ extract_boxed model_output ++ "\x7d") with
  | .ok s => s
  | .error _ => 0

example : extract_boxed "\\boxed\x7b42\x7d" = "42" := rfl
example : extract_boxed "\\boxed\x7b\\frac\x7b1\x7d\x7b2\x7d\x7d" = "\\frac\x7b1\x7d\x7b2\x7d" := rfl
example : extract_boxed "no box here" = "" := rfl
example : extract_boxed "\\boxed 5 end" = "5" := rfl
example : extract_boxed "\x7d\x7b\\boxed\x7b1\x7d" = "" := rfl
example : isMinervaMath "/d/MINERVA_MATH/0.jsonl" = true := rfl
example : isMinervaMath "/d/math500/0.jsonl" = false := rfl
example : scoreOutputPath "data.jsonl" = "data_score.jsonl" := rfl

/-- Every exception reaching the handler chain is caught by its first clause
`except Exception: pass`, which leaves `ret_score` unchanged. -/
theorem handleVerifyExc_ok (t r : ℚ) (e : PyExc) : handleVerifyExc t r e = Except.ok r := rfl

/-- `compute_score` never propagates an exception: it returns the verifier's
score, or the fallback 0 when the verifier raises. -/
theorem compute_score_eq_ok (verify : String → String → Except PyExc ℚ)
    (out gt : String) (t : ℚ) :
    compute_score verify out gt t = Except.ok (computeScoreVal verify out gt) := by
  cases h : verify ("\\boxed\x7b" ++ gt ++ "\x7d")
      ("\\boxed\x7b" ++ extract_boxed out ++ "\x7d") with
  | ok s => simp [compute_score, computeScoreVal, h]
  | error e => simp [compute_score, computeScoreVal, h, handleVerifyExc_ok]

/-- Claim C10: whenever the verifier call raises — any exception, the timeout
included — `compute_score` returns the fallback 0.0 whatever the
`timeout_score` argument is: the clause `except Exception: pass` is tried
first and `TimeoutException` derives from `Exception`, so the clause
assigning `timeout_score` never runs. -/
theorem C10_generic_handler_shadows_timeout (verify : String → String → Except PyExc ℚ)
    (out gt : String) (t : ℚ) (e : PyExc)
    (h : verify ("\\boxed\x7b" ++ gt ++ "\x7d")
      ("\\boxed\x7b" ++ extract_boxed out ++ "\x7d") = Except.error e) :
    compute_score verify out gt t = Except.ok 0 := by
  simp [compute_score, h, handleVerifyExc_ok]

theorem C10_witness :
    compute_score (fun _ _ => Except.error PyExc.timeoutException) "x" "1" 37 = Except.ok 0 :=
  C10_generic_handler_shadows_timeout (fun _ _ => Except.error PyExc.timeoutException)
    "x" "1" 37 PyExc.timeoutException rfl

/-- Claim C2 is refuted by the code: a verification that raises
`TimeoutException` under `timeout_score = 1` returns the score 0, not 1.
The `except Exception: pass` clause precedes `except TimeoutException` and
matches it, so the timeout fallback parameter is dead. -/
theorem C2_timeout_fallback_dead_code :
    compute_score (fun _ _ => Except.error PyExc.timeoutException) "x" "1" 1 = Except.ok 0 ∧
    (0 : ℚ) ≠ 1 := by
  exact ⟨rfl, by norm_num⟩

/-- Claim C1 (amended): under the general verifier strategy, the `try` inside
`compute_score` absorbs every exception of the verifier call, so for every
choice of external capabilities — even a verifier raising on every call —
the scoring loop completes and yields exactly one numeric score per
response per sample, in input order. -/
theorem C1_general_strategy_isolates_failures (caps : ExternalCaps) (samples : List Sample) :
    scoreAll caps false samples =
      Except.ok (samples.map fun s =>
        s.responses.map fun r => computeScoreVal caps.verify r s.gt) := by
  have hresp : ∀ (gt : String) (rs : List String), scoreResponses caps false gt rs =
      Except.ok (rs.map fun r => computeScoreVal caps.verify r gt) := by
    intro gt rs
    induction rs with
    | nil => rfl
    | cons r rs ihr =>
      simp [scoreResponses, scoreResponse, compute_score_eq_ok, ihr]
  induction samples with
  | nil => rfl
  | cons s ss ih => simp [scoreAll, hresp, ih]

/-- Claim C1 (counterexample to the claim as stated): under the
`minerva_math` strategy the graders are invoked with no response-level
handler, so one failing response aborts the entire loop — here a raising
`extract_answer` makes a two-sample run return an error, leaving every
response of both samples unscored. -/
theorem C1_counterexample :
    scoreAll ⟨fun _ _ => Except.ok 1, fun _ _ => Except.error PyExc.otherException,
        fun _ _ => Except.ok true⟩ true
      [⟨"p1", "1", ["r1"]⟩, ⟨"p2", "2", ["r2"]⟩] =
      Except.error PyExc.otherException := rfl

/-- Inversion of the inner loop: a successful run produced one score per
response, the i-th score being the result of scoring the i-th response. -/
theorem scoreResponses_ok {caps : ExternalCaps} {m : Bool} {gt : String} :
    ∀ {rs : List String} {ss : List ℚ},
      scoreResponses caps m gt rs = Except.ok ss →
      ss.length = rs.length ∧
      ∀ (i : Nat) (h1 : i < rs.length) (h2 : i < ss.length),
        scoreResponse caps m gt (rs.get ⟨i, h1⟩) = Except.ok (ss.get ⟨i, h2⟩) := by
  intro rs
  induction rs with
  | nil =>
    intro ss h
    simp only [scoreResponses] at h
    injection h with h
    subst h
    exact ⟨rfl, fun i h1 _ => absurd h1 (by simp)⟩
  | cons r rs ih =>
    intro ss h
    simp only [scoreResponses] at h
    cases hr : scoreResponse caps m gt r with
    | error e => rw [hr] at h; exact absurd h (by simp)
    | ok s =>
      rw [hr] at h
      cases ht : scoreResponses caps m gt rs with
      | error e => rw [ht] at h; exact absurd h (by simp)
      | ok tl =>
        rw [ht] at h
        injection h with h
        subst h
        obtain ⟨hlen, hidx⟩ := ih ht
        refine ⟨by simpa using hlen, ?_⟩
        intro i h1 h2
        cases i with
        | zero => simpa using hr
        | succ n =>
          have hn1 : n < rs.length := by simpa using h1
          have hn2 : n < tl.length := by simpa using h2
          simpa using hidx n hn1 hn2

/-- Inversion of the outer loop: a successful run produced one score list
per sample, the k-th list coming from a successful inner run on the k-th
sample. -/
theorem scoreAll_ok {caps : ExternalCaps} {m : Bool} :
    ∀ {samples : List Sample} {all_scores : List (List ℚ)},
      scoreAll caps m samples = Except.ok all_scores →
      all_scores.length = samples.length ∧
      ∀ (k : Nat) (h1 : k < samples.length) (h2 : k < all_scores.length),
        scoreResponses caps m (samples.get ⟨k, h1⟩).gt (samples.get ⟨k, h1⟩).responses =
          Except.ok (all_scores.get ⟨k, h2⟩) := by
  intro samples
  induction samples with
  | nil =>
    intro all_scores h
    simp only [scoreAll] at h
    injection h with h
    subst h
    exact ⟨rfl, fun k h1 _ => absurd h1 (by simp)⟩
  | cons s ss ih =>
    intro all_scores h
    simp only [scoreAll] at h
    cases hr : scoreResponses caps m s.gt s.responses with
    | error e => rw [hr] at h; exact absurd h (by simp)
    | ok tmp =>
      rw [hr] at h
      cases ht : scoreAll caps m ss with
      | error e => rw [ht] at h; exact absurd h (by simp)
      | ok rest =>
        rw [ht] at h
        injection h with h
        subst h
        obtain ⟨hlen, hidx⟩ := ih ht
        refine ⟨by simpa using hlen, ?_⟩
        intro k h1 h2
        cases k with
        | zero => simpa using hr
        | succ n =>
          have hn1 : n < ss.length := by simpa using h1
          have hn2 : n < rest.length := by simpa using h2
          simpa using hidx n hn1 hn2

/-- Claim C4: whenever the orchestration loop completes, every sample's
score list has exactly the length of its response list and is
index-aligned — the i-th score is the result of scoring the i-th
response. -/
theorem C4_scores_aligned (caps : ExternalCaps) (m : Bool) (samples : List Sample)
    (all_scores : List (List ℚ)) (h : scoreAll caps m samples = Except.ok all_scores) :
    all_scores.length = samples.length ∧
    ∀ (k : Nat) (hk : k < samples.length) (hk2 : k < all_scores.length),
      (all_scores.get ⟨k, hk2⟩).length = (samples.get ⟨k, hk⟩).responses.length ∧
      ∀ (i : Nat) (hi : i < (samples.get ⟨k, hk⟩).responses.length)
        (hi2 : i < (all_scores.get ⟨k, hk2⟩).length),
        scoreResponse caps m (samples.get ⟨k, hk⟩).gt
            ((samples.get ⟨k, hk⟩).responses.get ⟨i, hi⟩) =
          Except.ok ((all_scores.get ⟨k, hk2⟩).get ⟨i, hi2⟩) := by
  obtain ⟨hlen, hrows⟩ := scoreAll_ok h
  refine ⟨hlen, fun k hk hk2 => ?_⟩
  obtain ⟨hrl, hri⟩ := scoreResponses_ok (hrows k hk hk2)
  exact ⟨hrl, hri⟩

theorem C4_witness :
    ([[(0 : ℚ), 0]] : List (List ℚ)).length = 1 ∧
    (([[(0 : ℚ), 0]] : List (List ℚ)).get ⟨0, by simp⟩).length = 2 := by
  have h := C4_scores_aligned
    ⟨fun _ _ => Except.ok 0, fun _ _ => Except.ok "", fun _ _ => Except.ok true⟩
    false [⟨"p", "1", ["a", "b"]⟩] [[0, 0]] rfl
  exact ⟨h.1, (h.2 0 (by simp) (by simp)).1⟩

/-- Claim C5: a closing brace scanned while the stack of unmatched opening
braces is empty makes the scan return immediately with `none`, which
`extract_boxed` turns into the empty string — any later well-formed boxed
expression is never inspected; in particular on the text `}{\\boxed{1}`. -/
theorem C5_unmatched_close_early_exit :
    (∀ (full rest : List Char) (i : Nat) (acc : List (List Char)),
      scanBoxed full (closeBrace :: rest) i [] acc = none) ∧
    (∀ text : String, scanBoxed text.toList text.toList 0 [] [] = none →
      extract_boxed text = "") ∧
    extract_boxed "\x7d\x7b\\boxed\x7b1\x7d" = "" := by
  refine ⟨fun full rest i acc => rfl, fun text h => ?_, rfl⟩
  simp only [extract_boxed, h]

theorem C5_witness :
    scanBoxed "\x7d".toList "\x7d".toList 0 [] [] = none ∧ extract_boxed "\x7d" = "" := by
  have h1 : scanBoxed "\x7d".toList (closeBrace :: ([] : List Char)) 0 [] [] = none :=
    C5_unmatched_close_early_exit.1 "\x7d".toList [] 0 []
  exact ⟨h1, C5_unmatched_close_early_exit.2.1 "\x7d" h1⟩

/-- Claim C6: when the scan completes with at least one captured candidate,
`extract_boxed` returns the last — rightmost-closed — candidate; the
substring between the matched braces is carried verbatim, nested braces
included: `\\boxed{42}` yields `42` and `\\boxed{\\frac{1}{2}}` yields
`\\frac{1}{2}`. -/
theorem C6_last_candidate_wins :
    (∀ (text : String) (cands : List (List Char)) (s : List Char),
      scanBoxed text.toList text.toList 0 [] [] = some cands →
      cands.getLast? = some s → extract_boxed text = ⟨s⟩) ∧
    extract_boxed "\\boxed\x7b42\x7d" = "42" ∧
    extract_boxed "\\boxed\x7b\\frac\x7b1\x7d\x7b2\x7d\x7d" = "\\frac\x7b1\x7d\x7b2\x7d" := by
  refine ⟨fun text cands s h hl => ?_, rfl, rfl⟩
  simp only [extract_boxed, h, hl]

theorem C6_witness :
    extract_boxed "\\boxed\x7b42\x7d" = ⟨['4', '2']⟩ :=
  C6_last_candidate_wins.1 "\\boxed\x7b42\x7d" [['4', '2']] ['4', '2'] rfl rfl

/-- Claim C7: when the scan completes with no candidate and no early exit,
`extract_boxed` falls back to one regex search for `\\boxed` followed by
whitespace and one contiguous alphanumeric token, returning the token or the
empty string when there is no match: `\\boxed 5 end` yields `5` and
`no box here` yields the empty string. -/
theorem C7_braceless_fallback :
    (∀ text : String, scanBoxed text.toList text.toList 0 [] [] = some [] →
      extract_boxed text = (match boxedFallbackSearch text.toList with
        | some tok => (⟨tok⟩ : String)
        | none => "")) ∧
    extract_boxed "\\boxed 5 end" = "5" ∧
    extract_boxed "no box here" = "" := by
  refine ⟨fun text h => ?_, rfl, rfl⟩
  simp only [extract_boxed, h, List.getLast?]

theorem C7_witness :
    extract_boxed "\\boxed 5 end" =
      (match boxedFallbackSearch "\\boxed 5 end".toList with
        | some tok => (⟨tok⟩ : String)
        | none => "") :=
  C7_braceless_fallback.1 "\\boxed 5 end" rfl

/-- `np.mean` on a rectangular nonempty nesting is the mean of the flattened
entries. -/
theorem npMean_eq (xss : List (List ℚ)) (hrect : isRectangular xss = true)
    (hne : xss.flatten ≠ []) :
    npMean xss = some (xss.flatten.sum / (xss.flatten.length : ℚ)) := by
  have hne' : xss.flatten.length ≠ 0 := fun h0 => hne (List.length_eq_zero.mp h0)
  have hlen : (xss.flatten.length == 0) = false := beq_eq_false_iff_ne.mpr hne' 
  simp only [npMean, hrect, hlen, eq_self_iff_true, if_true, Bool.false_eq_true, if_false]

/-- Claim C3 (amended): when every sample has the same number of responses
and at least one score exists, exactly one summary record is produced and
its mean is the arithmetic mean of the flattened scores rounded (half-even)
to 4 decimal places.  On a ragged collection `np.mean` raises instead and no
record is produced (see the counterexample). -/
theorem C3_mean_of_flattened (path : String) (xss : List (List ℚ))
    (hrect : isRectangular xss = true) (hne : xss.flatten ≠ []) :
    summarize path xss =
      some ⟨path, round4 (xss.flatten.sum / (xss.flatten.length : ℚ))⟩ := by
  unfold summarize
  rw [npMean_eq xss hrect hne]
  rfl

theorem C3_witness :
    summarize "d" [[1, 0], [0, 0]] =
      some ⟨"d", round4 ((([[(1 : ℚ), 0], [0, 0]] : List (List ℚ)).flatten.sum) /
        (([[(1 : ℚ), 0], [0, 0]] : List (List ℚ)).flatten.length : ℚ))⟩ :=
  C3_mean_of_flattened "d" [[1, 0], [0, 0]] rfl (by simp)

/-- Claim C3 (counterexample to the claim as stated): a collection whose two
samples have 1 and 2 responses scores to the ragged nested list
`[[0], [0, 0]]`, on which `np.mean` fails, so no summary record — let alone
one carrying the flattened mean — is produced. -/
theorem C3_counterexample :
    scoreAll ⟨fun g p => Except.ok (if g == p then 1 else 0), fun _ _ => Except.ok "",
        fun _ _ => Except.ok false⟩ false
      [⟨"p", "1", ["a"]⟩, ⟨"q", "1", ["a", "b"]⟩] = Except.ok [[0], [0, 0]] ∧
    summarize "d.jsonl" [[0], [0, 0]] = none := ⟨rfl, rfl⟩

/-- Claim C9: annotation adds exactly the `scores` field — the i-th output
record carries the i-th sample's `problem`, `gt` and `responses` unchanged
together with the i-th score list (records being what each output line
serializes, reading the collection back yields these very values) — and the
output location replaces the `.jsonl` tail of the input path by
`_score.jsonl`. -/
theorem C9_annotation_frame :
    (∀ (s : Sample) (sc : List ℚ),
      (annotateSample s sc).problem = s.problem ∧
      (annotateSample s sc).gt = s.gt ∧
      (annotateSample s sc).responses = s.responses ∧
      (annotateSample s sc).scores = sc) ∧
    (∀ (samples : List Sample) (all_scores : List (List ℚ)) (i : Nat)
      (hs : i < samples.length) (ha : i < all_scores.length)
      (hg : i < (gatherScored samples all_scores).length),
      ((gatherScored samples all_scores).get ⟨i, hg⟩).problem = (samples.get ⟨i, hs⟩).problem ∧
      ((gatherScored samples all_scores).get ⟨i, hg⟩).gt = (samples.get ⟨i, hs⟩).gt ∧
      ((gatherScored samples all_scores).get ⟨i, hg⟩).responses =
        (samples.get ⟨i, hs⟩).responses ∧
      ((gatherScored samples all_scores).get ⟨i, hg⟩).scores = all_scores.get ⟨i, ha⟩) ∧
    scoreOutputPath "data.jsonl" = "data_score.jsonl" := by
  refine ⟨fun s sc => ⟨rfl, rfl, rfl, rfl⟩, ?_, rfl⟩
  intro samples all_scores i hs ha hg
  simp [gatherScored, annotateSample, List.get_eq_getElem, List.getElem_map, List.getElem_zip]

theorem C9_witness :
    ((gatherScored [⟨"p", "g", ["r"]⟩] [[(1 : ℚ)]]).get
        ⟨0, by simp [gatherScored]⟩).scores = [(1 : ℚ)] :=
  (C9_annotation_frame.2.1 [⟨"p", "g", ["r"]⟩] [[(1 : ℚ)]] 0 (by simp) (by simp)
    (by simp [gatherScored])).2.2.2

/-- Swapping two in-range positions of a list is a permutation. -/
theorem set_set_perm {α : Type} [DecidableEq α] (l : List α) (i j : Nat)
    (hi : i < l.length) (hj : j < l.length) :
    ((l.set i l[j]).set j l[i]).Perm l := by
  rw [List.perm_iff_count]
  intro b
  have hj2 : j < (l.set i l[j]).length := by simpa using hj
  have hmid : (l.set i l[j])[j] = l[j] := by
    rcases eq_or_ne i j with rfl | hne
    · simp
    · simp [List.getElem_set_ne hne]
  rw [List.count_set _ _ _ _ hj2, hmid, List.count_set _ _ _ _ hi]
  have hi_mem : l[i] ∈ l := List.getElem_mem hi
  by_cases hib : l[i] = b
  · have h1 : 1 ≤ l.count b := List.one_le_count_iff.mpr (hib ▸ hi_mem)
    by_cases hjb : l[j] = b <;> simp [hib, hjb] <;> omega
  · by_cases hjb : l[j] = b <;> simp [hib, hjb]

/-- The Python parallel-assignment swap preserves the multiset of list
elements. -/
theorem pySwap_perm {α : Type} [DecidableEq α] (l : List α) (i j : Nat) :
    (pySwap l i j).Perm l := by
  unfold pySwap
  split
  next hi =>
    split
    next hj => exact set_set_perm l i j hi hj
    next => exact List.Perm.refl l
  next => exact List.Perm.refl l

/-- Every pass of the Fisher-Yates loop preserves the multiset of list
elements, whatever the random draws are. -/
theorem shuffleGo_perm {α : Type} [DecidableEq α] (rand : Nat → Nat) :
    ∀ (k : Nat) (l : List α), (shuffleGo rand k l).Perm l
  | 0, l => List.Perm.refl l
  | k + 1, l =>
    (shuffleGo_perm rand k (pySwap l (k + 1) (rand (k + 1) % (k + 2)))).trans
      (pySwap_perm l (k + 1) (rand (k + 1) % (k + 2)))

/-- Claim C8: for any shards and any outcome of the random draws, the merged
collection is a permutation of the concatenation of all shards — no sample
dropped, none duplicated — its reported size is the sum of the shard sizes,
and shards of sizes 3, 5 and 2 merge to exactly 10 samples. -/
theorem C8_merge_is_permutation {α : Type} [DecidableEq α] (rand : Nat → Nat)
    (shards : List (List α)) :
    (mergeShards rand shards).Perm shards.flatten ∧
    (mergeShards rand shards).length = (shards.map List.length).sum ∧
    ∀ rand2 : Nat → Nat,
      (mergeShards rand2 ([[0, 1, 2], [3, 4, 5, 6, 7], [8, 9]] : List (List ℕ))).length = 10 := by
  have hperm : ∀ (β : Type) [DecidableEq β] (r : Nat → Nat) (sh : List (List β)),
      (mergeShards r sh).Perm sh.flatten := fun β _ r sh =>
    shuffleGo_perm r (sh.flatten.length - 1) sh.flatten
  have hlen : ∀ (β : Type) [DecidableEq β] (r : Nat → Nat) (sh : List (List β)),
      (mergeShards r sh).length = (sh.map List.length).sum := by
    intro β _ r sh
    rw [(hperm β r sh).length_eq, List.length_flatten]
  refine ⟨hperm α rand shards, hlen α rand shards, fun rand2 => ?_⟩
  rw [hlen ℕ rand2 [[0, 1, 2], [3, 4, 5, 6, 7], [8, 9]]]
  rfl

end ReinforceAda
